import Mathlib

/-!
Shallow embedding of the interactive drawing canvas in `src/pages/home.tsx`.

Conventions of the embedding:
* JavaScript numbers are modelled as rationals (`ℚ`); particle life counters,
  which only ever hold integers, as `ℤ`.
* Shape ids (strings built from `Date.now()` plus randomness in the source)
  are modelled as natural numbers drawn from a counter `nextId` in the state.
* `Math.random()`-derived values are passed in as explicit oracle arguments
  (a palette index and a number `rand` with `0 ≤ rand < 1`).
* The hit test `Math.sqrt((x-sx)^2+(y-sy)^2) <= size/2` is embedded in the
  squared form `0 ≤ size ∧ (x-sx)^2+(y-sy)^2 ≤ (size/2)^2`, which is
  equivalent over the reals since the square root is nonnegative.
* Side effects (playing a note, showing a toast) are modelled as an explicit
  list of emitted effects.
* The 1.5 s long-press timeout is modelled by storing the pending callback's
  captured data (`touchedShape`, pointer coordinates) in the state; the
  callback firing is a separate step `fireLongPressTimer`.
-/

namespace Carehack

/-- The ten shape kinds of the `Shape.type` union in the source. -/
inductive ShapeType where
  | circle | star | triangle | heart | square | hexagon | diamond
  | flower | butterfly | rainbow
  deriving DecidableEq

/-- The three palette names keying `COLOR_PALETTES`. -/
inductive PaletteName where
  | pastels | rainbow | warm
  deriving DecidableEq

/-- The `COLOR_PALETTES` constant: each palette is a fixed list of 8 colors. -/
def COLOR_PALETTES : PaletteName → List String
  | .pastels => ["#FFB3E6", "#B3E5FF", "#B3FFB3", "#FFFFB3", "#E6B3FF", "#FFE6B3", "#B3FFFF", "#FFB3B3"]
  | .rainbow => ["#FF1493", "#00CED1", "#32CD32", "#FFD700", "#FF69B4", "#00BFFF", "#7FFF00", "#FF6347"]
  | .warm    => ["#FF4500", "#FF8C00", "#FFD700", "#FF1493", "#DC143C", "#FF69B4", "#FF6B6B", "#FF7F50"]

/-- The `Shape` interface. -/
structure Shape where
  id : Nat
  x : ℚ
  y : ℚ
  type : ShapeType
  color : String
  size : ℚ
  palette : PaletteName
  opacity : ℚ
  deriving DecidableEq

/-- The `Particle` interface. -/
structure Particle where
  id : Nat
  x : ℚ
  y : ℚ
  vx : ℚ
  vy : ℚ
  life : ℤ
  maxLife : ℤ
  color : String
  size : ℚ
  deriving DecidableEq

/-- The note classes accepted by `playNote`. -/
inductive NoteType where
  | create | delete | action
  deriving DecidableEq

/-- Observable side effects: a played note or a toast (identified by title). -/
inductive Effect where
  | sound (n : NoteType)
  | toastMsg (title : String)
  deriving DecidableEq

/-- Data captured by the pending `setTimeout` closure in `handlePointerDown`:
the touched shape and the pointer-down coordinates. -/
structure PendingTimer where
  shape : Shape
  x : ℚ
  y : ℚ
  deriving DecidableEq

/-- The component state relevant to the interaction logic. -/
structure CanvasState where
  shapes : List Shape
  particles : List Particle
  currentShape : ShapeType
  currentPalette : PaletteName
  currentSize : ℚ
  eraserMode : Bool
  draggedShape : Option Shape
  dragOffset : ℚ × ℚ
  longPressTimer : Option PendingTimer
  showLongPressIndicator : Bool
  longPressProgress : ℚ
  nextId : Nat
  deriving DecidableEq

/-- The hit test of `findShapeAt`:
`Math.sqrt((x - shape.x)^2 + (y - shape.y)^2) <= shape.size / 2`,
embedded in the equivalent squared form (the guard `0 ≤ size` accounts for
the nonnegativity of the square root). -/
def hitTest (x y : ℚ) (s : Shape) : Bool :=
  decide (0 ≤ s.size ∧ (x - s.x) ^ 2 + (y - s.y) ^ 2 ≤ (s.size / 2) ^ 2)

/-- `findShapeAt`: scan the shape list in reverse order (topmost first) and
return the first shape whose center is within `size / 2` of the point. -/
def findShapeAt (shapes : List Shape) (x y : ℚ) : Option Shape :=
  shapes.reverse.find? (hitTest x y)

/-- `createSpreadingWave`: appends one wave particle at the tap point with
`life = maxLife = 60`, no velocity, and the current size. -/
def createSpreadingWave (st : CanvasState) (x y : ℚ) (color : String) : CanvasState :=
  { st with particles := st.particles ++
      [{ id := st.nextId, x := x, y := y, vx := 0, vy := 0,
         life := 60, maxLife := 60, color := color, size := st.currentSize }] }

/-- `createShape`: returns early in eraser mode; otherwise appends one shape
with a random palette color, size `currentSize + rand * 20 - 10` and opacity
`0.9`, spawns a wave particle, and plays a `create` note.  `colorIdx` stands
for `Math.floor(Math.random() * colors.length)` and `rand` for
`Math.random()`. -/
def createShape (st : CanvasState) (x y : ℚ) (colorIdx : Nat) (rand : ℚ) :
    CanvasState × List Effect :=
  if st.eraserMode then (st, [])
  else
    let colors := COLOR_PALETTES st.currentPalette
    let color := colors.getD colorIdx ""
    let newShape : Shape :=
      { id := st.nextId, x := x, y := y, type := st.currentShape,
        color := color, size := st.currentSize + rand * 20 - 10,
        palette := st.currentPalette, opacity := 9 / 10 }
    let st1 := { st with shapes := st.shapes ++ [newShape] }
    let st2 := createSpreadingWave st1 x y color
    ({ st2 with nextId := st2.nextId + 1 }, [Effect.sound .create])

/-- `deleteShape`: removes every shape whose id equals the target's id and
plays a `delete` note. -/
def deleteShape (st : CanvasState) (shapeToDelete : Shape) :
    CanvasState × List Effect :=
  ({ st with shapes := st.shapes.filter (fun s => decide (s.id ≠ shapeToDelete.id)) },
   [Effect.sound .delete])

/-- `increaseSize`: `Math.min(prev + 20, 200)`. -/
def increaseSize (s : ℚ) : ℚ := min (s + 20) 200

/-- `decreaseSize`: `Math.max(prev - 20, 20)`. -/
def decreaseSize (s : ℚ) : ℚ := max (s - 20) 20

/-- `handlePointerDown` at canvas coordinates `(x, y)`:
* touched shape and eraser mode: delete it;
* touched shape otherwise: show the long-press indicator, reset the progress,
  and arm the 1.5 s timer (its captured data is stored in `longPressTimer`);
* no touched shape: `createShape`. -/
def handlePointerDown (st : CanvasState) (x y : ℚ) (colorIdx : Nat) (rand : ℚ) :
    CanvasState × List Effect :=
  match findShapeAt st.shapes x y with
  | some touchedShape =>
    if st.eraserMode then deleteShape st touchedShape
    else
      ({ st with showLongPressIndicator := true,
                 longPressProgress := 0,
                 longPressTimer := some { shape := touchedShape, x := x, y := y } },
       [])
  | none => createShape st x y colorIdx rand

/-- The `setTimeout` callback armed by `handlePointerDown` firing after 1.5 s:
sets the dragged shape and grab offset, hides the indicator, drops the
dragged shape's opacity to `0.7`, plays an `action` note and shows the
"Drag Mode" toast.  (The source does not clear the `longPressTimer` state
variable here; `clearTimeout` on an already-fired timer is a no-op.) -/
def fireLongPressTimer (st : CanvasState) : CanvasState × List Effect :=
  match st.longPressTimer with
  | none => (st, [])
  | some t =>
    ({ st with
        draggedShape := some t.shape,
        dragOffset := (t.x - t.shape.x, t.y - t.shape.y),
        showLongPressIndicator := false,
        shapes := st.shapes.map (fun shape =>
          if shape.id = t.shape.id then { shape with opacity := 7 / 10 } else shape) },
     [Effect.sound .action, Effect.toastMsg "Drag Mode"])

/-- `handlePointerMove`: when a shape is being dragged, move it to the pointer
position minus the grab offset. -/
def handlePointerMove (st : CanvasState) (px py : ℚ) : CanvasState :=
  match st.draggedShape with
  | none => st
  | some draggedShape =>
    { st with shapes := st.shapes.map (fun shape =>
        if shape.id = draggedShape.id then
          { shape with x := px - st.dragOffset.1, y := py - st.dragOffset.2 }
        else shape) }

/-- `handlePointerUp`: cancels any pending long-press timer; if a shape was
being dragged, sets its opacity to `1` and plays an `action` note; hides the
indicator, zeroes the progress, and clears the dragged shape and offset. -/
def handlePointerUp (st : CanvasState) : CanvasState × List Effect :=
  let cleared := { st with longPressTimer := none }
  match st.draggedShape with
  | some draggedShape =>
    ({ cleared with
        shapes := cleared.shapes.map (fun shape =>
          if shape.id = draggedShape.id then { shape with opacity := 1 } else shape),
        showLongPressIndicator := false,
        longPressProgress := 0,
        draggedShape := none,
        dragOffset := (0, 0) },
     [Effect.sound .action])
  | none =>
    ({ cleared with
        showLongPressIndicator := false,
        longPressProgress := 0,
        draggedShape := none,
        dragOffset := (0, 0) },
     [])

/-- The fixed ordered list of shape kinds used by `cycleShape`. -/
def shapeOrder : List ShapeType :=
  [.circle, .star, .triangle, .heart, .square, .hexagon, .diamond,
   .flower, .butterfly, .rainbow]

/-- `cycleShape`: advance to the next element of `shapeOrder`, wrapping. -/
def cycleShape (currentShape : ShapeType) : ShapeType :=
  let currentIndex := shapeOrder.indexOf currentShape
  shapeOrder.getD ((currentIndex + 1) % shapeOrder.length) .circle

/-- `clearCanvas`: when at least one shape is present, empty both the shape
and particle collections, play an `action` note and show the
"Canvas Cleared" toast; otherwise do nothing. -/
def clearCanvas (st : CanvasState) : CanvasState × List Effect :=
  if st.shapes.length > 0 then
    ({ st with shapes := [], particles := [] },
     [Effect.sound .action, Effect.toastMsg "Canvas Cleared"])
  else (st, [])

/-- One step of the particle-update interval applied to a single particle:
position and velocity rewritten in place, life decremented by one. -/
def ageParticle (p : Particle) : Particle :=
  { p with x := p.x, y := p.y, vx := 0, vy := 0, life := p.life - 1 }

/-- The body of the `setInterval` particle updater: decrement every particle's
life and keep only those whose life is still positive. -/
def particleTick (ps : List Particle) : List Particle :=
  (ps.map ageParticle).filter (fun p => decide (p.life > 0))

/-- A size-control button press: either `increaseSize` or `decreaseSize`. -/
inductive SizeOp where
  | inc | dec
  deriving DecidableEq

/-- Apply one size-control button press to the current size. -/
def applySizeOp (s : ℚ) : SizeOp → ℚ
  | .inc => increaseSize s
  | .dec => decreaseSize s

/-- The size reached from the default size `80` after a sequence of
size-control button presses. -/
def runSizeOps (ops : List SizeOp) : ℚ :=
  ops.foldl applySizeOp 80

/-! ### Concrete states used to instantiate the theorems -/

/-- The component's initial state: no shapes, circle, pastels, size 80. -/
def baseState : CanvasState :=
  { shapes := [], particles := [], currentShape := .circle,
    currentPalette := .pastels, currentSize := 80, eraserMode := false,
    draggedShape := none, dragOffset := (0, 0), longPressTimer := none,
    showLongPressIndicator := false, longPressProgress := 0, nextId := 1 }

/-- A sample shape at the origin with the default size. -/
def shapeA : Shape :=
  { id := 0, x := 0, y := 0, type := .circle, color := "#FFB3E6",
    size := 80, palette := .pastels, opacity := 9 / 10 }

/-- A sample particle with two ticks of life left. -/
def particleA : Particle :=
  { id := 5, x := 1, y := 2, vx := 0, vy := 0, life := 2, maxLife := 60,
    color := "#FFB3E6", size := 80 }

/-- The initial state with the eraser toggled on. -/
def eraserEmptyState : CanvasState :=
  { baseState with eraserMode := true }

/-- A state holding one shape, with the eraser toggled on. -/
def eraserHitState : CanvasState :=
  { baseState with shapes := [shapeA], eraserMode := true }

/-- A state holding one shape, eraser off (start of a tap or drag gesture). -/
def dragTapState : CanvasState :=
  { baseState with shapes := [shapeA] }

/-- The state reached from `dragTapState` by pointer-down on the shape
followed by the long-press timer firing: an active drag. -/
def dragActiveState : CanvasState :=
  (fireLongPressTimer (handlePointerDown dragTapState 0 0 0 0).1).1

end Carehack

namespace Carehack

/-! ### Theorems -/

/-- C6: starting from the initial size 80, any finite sequence of
`increaseSize` / `decreaseSize` presses keeps the size within `[20, 200]`;
`increaseSize` maps `s` to `min (s + 20) 200` and `decreaseSize` maps `s`
to `max (s - 20) 20`. -/
theorem size_stays_clamped :
    (∀ s : ℚ, increaseSize s = min (s + 20) 200) ∧
    (∀ s : ℚ, decreaseSize s = max (s - 20) 20) ∧
    (∀ ops : List SizeOp, 20 ≤ runSizeOps ops ∧ runSizeOps ops ≤ 200) := by
  refine ⟨fun _ => rfl, fun _ => rfl, fun ops => ?_⟩
  have key : ∀ (l : List SizeOp) (s : ℚ), 20 ≤ s → s ≤ 200 →
      20 ≤ l.foldl applySizeOp s ∧ l.foldl applySizeOp s ≤ 200 := by
    intro l
    induction l with
    | nil => intro s h1 h2; exact ⟨h1, h2⟩
    | cons op tl ih =>
      intro s h1 h2
      apply ih
      · cases op with
        | inc =>
          simp only [applySizeOp, increaseSize, le_min_iff]
          constructor <;> linarith
        | dec =>
          simp only [applySizeOp, decreaseSize, le_max_iff]
          right; rfl
      · cases op with
        | inc =>
          simp only [applySizeOp, increaseSize, min_le_iff]
          right; rfl
        | dec =>
          simp only [applySizeOp, decreaseSize, max_le_iff]
          constructor <;> linarith
  exact key ops 80 (by norm_num) (by norm_num)

/-- C9: `shapeOrder` has 10 elements and applying `cycleShape` 10 times
returns any shape kind to itself (each call advances through the fixed
ordered list, wrapping at the end). -/
theorem cycleShape_period_ten :
    shapeOrder.length = 10 ∧ ∀ t : ShapeType, cycleShape^[10] t = t := by
  refine ⟨rfl, fun t => ?_⟩
  cases t <;> rfl

/-- C10: every pointer-up, from any interaction state, fully resets the
gesture state: no dragged shape, zero drag offset, indicator hidden,
progress zero, and no pending long-press timer. -/
theorem pointerUp_resets_interaction (st : CanvasState) :
    (handlePointerUp st).1.draggedShape = none ∧
    (handlePointerUp st).1.dragOffset = (0, 0) ∧
    (handlePointerUp st).1.showLongPressIndicator = false ∧
    (handlePointerUp st).1.longPressProgress = 0 ∧
    (handlePointerUp st).1.longPressTimer = none := by
  unfold handlePointerUp
  cases st.draggedShape <;> simp

/-- C7: clearing the canvas with at least one shape present empties both the
shape and particle collections; clearing an empty canvas changes nothing and
emits no effect (no sound, no toast). -/
theorem clearCanvas_effect (st : CanvasState) :
    (st.shapes ≠ [] →
      (clearCanvas st).1.shapes = [] ∧ (clearCanvas st).1.particles = []) ∧
    (st.shapes = [] → clearCanvas st = (st, [])) := by
  constructor
  · intro h
    unfold clearCanvas
    rw [if_pos (by simpa [List.length_pos] using h)]
    exact ⟨rfl, rfl⟩
  · intro h
    unfold clearCanvas
    rw [if_neg (by simp [h])]

/-- Witness for C7 at concrete states: a one-shape state is emptied, the
empty initial state is untouched with no effects. -/
theorem clearCanvas_effect_witness :
    ((clearCanvas dragTapState).1.shapes = [] ∧
      (clearCanvas dragTapState).1.particles = []) ∧
    clearCanvas baseState = (baseState, []) :=
  ⟨(clearCanvas_effect dragTapState).1 (by decide),
   (clearCanvas_effect baseState).2 rfl⟩

/-- C8: a particle survives an aging tick exactly when its decremented life
is still positive, every survivor is the one-step-aged version of a particle
of the input, and aging decrements life by exactly one. -/
theorem particleTick_membership (ps : List Particle) :
    (∀ p : Particle,
      p ∈ particleTick ps ↔ ∃ q ∈ ps, p = ageParticle q ∧ q.life - 1 > 0) ∧
    (∀ q : Particle, (ageParticle q).life = q.life - 1) := by
  refine ⟨fun p => ?_, fun _ => rfl⟩
  simp only [particleTick, List.mem_filter, List.mem_map, decide_eq_true_eq]
  constructor
  · rintro ⟨⟨q, hq, rfl⟩, hl⟩
    exact ⟨q, hq, rfl, hl⟩
  · rintro ⟨q, hq, rfl, hl⟩
    exact ⟨⟨q, hq, rfl⟩, hl⟩

/-- A shape returned by `findShapeAt` is a member of the scanned list. -/
theorem findShapeAt_mem {l : List Shape} {x y : ℚ} {s : Shape}
    (h : findShapeAt l x y = some s) : s ∈ l :=
  List.mem_reverse.mp (List.mem_of_find?_eq_some h)

/-- C3: `findShapeAt` returns `none` exactly when no shape of the list passes
the distance test, and returns `some s` exactly when `s` passes the test and
is the last (most recently created) such shape: every shape after it in the
list fails the test. -/
theorem findShapeAt_characterization (l : List Shape) (x y : ℚ) :
    (findShapeAt l x y = none ↔ ∀ s ∈ l, hitTest x y s = false) ∧
    (∀ s : Shape, findShapeAt l x y = some s ↔
      hitTest x y s = true ∧
      ∃ pre post, l = pre ++ s :: post ∧ ∀ t ∈ post, hitTest x y t = false) := by
  constructor
  · unfold findShapeAt
    rw [List.find?_eq_none]
    simp [List.mem_reverse]
  · intro s
    unfold findShapeAt
    rw [List.find?_eq_some]
    constructor
    · rintro ⟨hp, as, bs, hrev, hall⟩
      refine ⟨hp, bs.reverse, as.reverse, ?_, ?_⟩
      · have h2 := congrArg List.reverse hrev
        rw [List.reverse_reverse] at h2
        rw [h2]
        simp
      · intro t ht
        have := hall t (by simpa using ht)
        simpa using this
    · rintro ⟨hp, pre, post, rfl, hall⟩
      refine ⟨hp, post.reverse, pre.reverse, ?_, ?_⟩
      · simp
      · intro a ha
        simpa using hall a (by simpa using ha)

/-- C1 as stated is violated by the eraser flag: pointer-down on empty space
with the eraser on hits nothing yet appends no shape (`createShape` returns
early in eraser mode). -/
theorem tap_empty_eraser_no_shape :
    findShapeAt eraserEmptyState.shapes 0 0 = none ∧
    eraserEmptyState.eraserMode = true ∧
    ¬ ∃ ns : Shape, (handlePointerDown eraserEmptyState 0 0 0 0).1.shapes =
        eraserEmptyState.shapes ++ [ns] := by
  refine ⟨rfl, rfl, ?_⟩
  rintro ⟨ns, h⟩
  simp [handlePointerDown, createShape, eraserEmptyState, baseState, findShapeAt] at h

/-- C1 (amended to eraser mode off): pointer-down on empty space appends
exactly one shape, whose color is an element of the current palette and whose
size lies within `[currentSize - 10, currentSize + 10]`. -/
theorem tap_empty_creates_one_shape (st : CanvasState) (x y : ℚ)
    (colorIdx : Nat) (rand : ℚ)
    (he : st.eraserMode = false)
    (hf : findShapeAt st.shapes x y = none)
    (hc : colorIdx < (COLOR_PALETTES st.currentPalette).length)
    (hr0 : 0 ≤ rand) (hr1 : rand < 1) :
    ∃ ns : Shape,
      (handlePointerDown st x y colorIdx rand).1.shapes = st.shapes ++ [ns] ∧
      ns.color ∈ COLOR_PALETTES st.currentPalette ∧
      st.currentSize - 10 ≤ ns.size ∧ ns.size ≤ st.currentSize + 10 := by
  refine ⟨{ id := st.nextId, x := x, y := y, type := st.currentShape,
            color := (COLOR_PALETTES st.currentPalette).getD colorIdx "",
            size := st.currentSize + rand * 20 - 10,
            palette := st.currentPalette, opacity := 9 / 10 }, ?_, ?_, ?_, ?_⟩
  · unfold handlePointerDown
    rw [hf]
    simp [createShape, createSpreadingWave, he]
  · show (COLOR_PALETTES st.currentPalette).getD colorIdx "" ∈
      COLOR_PALETTES st.currentPalette
    rw [List.getD_eq_getElem?_getD, List.getElem?_eq_getElem hc]
    exact List.getElem_mem _
  · show st.currentSize - 10 ≤ st.currentSize + rand * 20 - 10
    linarith
  · show st.currentSize + rand * 20 - 10 ≤ st.currentSize + 10
    linarith

/-- Witness for the amended C1: from the initial state, a tap at `(5, 5)`
with oracle values `colorIdx = 0`, `rand = 0`. -/
theorem tap_empty_creates_one_shape_witness :
    ∃ ns : Shape,
      (handlePointerDown baseState 5 5 0 0).1.shapes = baseState.shapes ++ [ns] ∧
      ns.color ∈ COLOR_PALETTES baseState.currentPalette ∧
      baseState.currentSize - 10 ≤ ns.size ∧ ns.size ≤ baseState.currentSize + 10 :=
  tap_empty_creates_one_shape baseState 5 5 0 0 rfl rfl (by decide)
    (by norm_num) (by norm_num)

/-- C2: with pairwise-distinct shape ids, pointer-down in eraser mode on a
point where `findShapeAt` returns a shape removes exactly that shape: a shape
is in the resulting list exactly when it was present before and is not the
hit shape. -/
theorem eraser_removes_exactly_hit (st : CanvasState) (x y : ℚ)
    (colorIdx : Nat) (rand : ℚ) (s : Shape)
    (hn : (st.shapes.map Shape.id).Nodup)
    (he : st.eraserMode = true)
    (hf : findShapeAt st.shapes x y = some s) :
    ∀ t : Shape,
      t ∈ (handlePointerDown st x y colorIdx rand).1.shapes ↔
        (t ∈ st.shapes ∧ t ≠ s) := by
  intro t
  have hs : s ∈ st.shapes := findShapeAt_mem hf
  unfold handlePointerDown
  rw [hf]
  simp only [he, if_true, deleteShape, List.mem_filter, decide_eq_true_eq]
  constructor
  · rintro ⟨ht, hid⟩
    exact ⟨ht, fun hts => hid (by rw [hts])⟩
  · rintro ⟨ht, hts⟩
    exact ⟨ht, fun hid => hts (List.inj_on_of_nodup_map hn ht hs hid)⟩

/-- The origin passes the hit test against `shapeA` (distance 0, radius 40). -/
theorem hitTest_shapeA_origin : hitTest 0 0 shapeA = true := by
  simp only [hitTest, shapeA, decide_eq_true_eq]
  norm_num

/-- `findShapeAt` on the singleton list `[shapeA]` at the origin hits it. -/
theorem findShapeAt_singleShape : findShapeAt [shapeA] 0 0 = some shapeA := by
  unfold findShapeAt
  simp [hitTest_shapeA_origin]

/-- Witness for C2: a one-shape state in eraser mode, tap at the origin. -/
theorem eraser_removes_exactly_hit_witness :
    shapeA ∈ (handlePointerDown eraserHitState 0 0 0 0).1.shapes ↔
      (shapeA ∈ eraserHitState.shapes ∧ shapeA ≠ shapeA) :=
  eraser_removes_exactly_hit eraserHitState 0 0 0 0 shapeA (by decide) rfl
    findShapeAt_singleShape shapeA

/-- C4: pointer-down on an existing shape with eraser off, followed by a
pointer-up before the long-press timer fires, leaves the shape list exactly
as it was before the pointer-down. -/
theorem tap_shape_before_timeout_noop (st : CanvasState) (x y : ℚ)
    (colorIdx : Nat) (rand : ℚ) (s : Shape)
    (he : st.eraserMode = false)
    (hf : findShapeAt st.shapes x y = some s)
    (hd : st.draggedShape = none) :
    (handlePointerUp (handlePointerDown st x y colorIdx rand).1).1.shapes =
      st.shapes := by
  unfold handlePointerDown
  rw [hf]
  simp only [he, Bool.false_eq_true, if_false]
  unfold handlePointerUp
  simp [hd]

/-- Witness for C4: tap the single shape of `dragTapState` and release. -/
theorem tap_shape_before_timeout_noop_witness :
    (handlePointerUp (handlePointerDown dragTapState 0 0 0 0).1).1.shapes =
      dragTapState.shapes :=
  tap_shape_before_timeout_noop dragTapState 0 0 0 0 shapeA rfl
    findShapeAt_singleShape rfl

/-- Evaluation of the drag gesture on `dragTapState`: after the long-press
timer fires the touched shape is the drag target, and the following
pointer-up leaves the single shape with opacity `1`. -/
theorem dragActive_eval :
    dragActiveState.draggedShape = some shapeA ∧
    (handlePointerUp dragActiveState).1.shapes = [{ shapeA with opacity := 1 }] := by
  have h1 : (handlePointerDown dragTapState 0 0 0 0).1 =
      { dragTapState with
          showLongPressIndicator := true,
          longPressProgress := 0,
          longPressTimer := some (PendingTimer.mk shapeA 0 0) } := by
    unfold handlePointerDown
    rw [show findShapeAt dragTapState.shapes 0 0 = some shapeA from
      findShapeAt_singleShape]
    rfl
  constructor
  · unfold dragActiveState
    rw [h1]
    rfl
  · unfold dragActiveState
    rw [h1]
    rfl

/-- C5 as stated fails: the shape was created with opacity `0.9`, but after a
completed drag gesture the pointer-up handler sets its opacity to `1`, not to
the pre-drag value. -/
theorem drag_restores_wrong_opacity :
    shapeA.opacity = 9 / 10 ∧
    dragTapState.shapes = [shapeA] ∧
    (handlePointerUp dragActiveState).1.shapes.map Shape.opacity = [1] ∧
    (1 : ℚ) ≠ 9 / 10 := by
  refine ⟨rfl, rfl, ?_, by norm_num⟩
  rw [dragActive_eval.2]
  rfl

/-- C5 (amended): after a completed drag, pointer-up sets the dragged shape's
opacity to the constant `1` (full opacity), whatever it was before the drag
began; shapes with a different id are left unchanged. -/
theorem pointerUp_sets_opacity_one (st : CanvasState) (d : Shape)
    (hd : st.draggedShape = some d) :
    (∀ sh ∈ (handlePointerUp st).1.shapes, sh.id = d.id → sh.opacity = 1) ∧
    (∀ sh ∈ st.shapes, sh.id ≠ d.id → sh ∈ (handlePointerUp st).1.shapes) := by
  unfold handlePointerUp
  rw [hd]
  constructor
  · intro sh hsh hid
    simp only [List.mem_map] at hsh
    obtain ⟨u, hu, rfl⟩ := hsh
    by_cases h : u.id = d.id
    · simp [h]
    · rw [if_neg h] at hid
      exact absurd hid h
  · intro sh hsh hid
    simp only [List.mem_map]
    exact ⟨sh, hsh, by rw [if_neg hid]⟩

/-- Witness for the amended C5: in the active drag reached from
`dragTapState`, pointer-up leaves the dragged shape with opacity `1`. -/
theorem pointerUp_sets_opacity_one_witness :
    dragActiveState.draggedShape = some shapeA ∧
    ({ shapeA with opacity := 1 } : Shape) ∈
      (handlePointerUp dragActiveState).1.shapes ∧
    ({ shapeA with opacity := 1 } : Shape).opacity = 1 :=
  ⟨dragActive_eval.1,
   by rw [dragActive_eval.2]; exact List.mem_singleton.mpr rfl,
   (pointerUp_sets_opacity_one dragActiveState shapeA dragActive_eval.1).1 _
     (by rw [dragActive_eval.2]; exact List.mem_singleton.mpr rfl) rfl⟩

end Carehack
